import Mathlib

/-!
Verification development for the humidity-interpolation core of
`scripts/update_humidity.py` (taiwan-weather-timelapse).

Shallow embedding conventions:
* A numpy float grid cell is `Option ℚ`: `none` models NaN (the `griddata` of scipy yields NaN outside the convex hull; the mask assignment writes
  NaN), `some v` models a finite numeric value.
* `scipy.interpolate.griddata` is an external library call; it is passed in
  as an abstract function `GriddataFn` (method, points, values, lon samples,
  lat samples → grid or raised error, as `Except`).
* File I/O around `load_land_mask` is abstracted to an `Option` input:
  `none` models "temperature file absent, unreadable or malformed"
  (every such case raises inside the `try` and is caught, returning None);
  `some frames` models the parsed `temp_data["frames"][i]["data"]` grids.
* The module-global `LAND_MASK` cache of `get_land_mask` is modelled by
  explicit state passing (`get_land_mask_step` / `run_get_land_mask`).
* Python `round(x, 1)` is modelled as exact decimal round-half-to-even
  (`pyRound1`).
-/

/-- A numpy-style 2D float array: `none` is NaN, `some v` a finite value. -/
abbrev Grid := List (List (Option ℚ))

/-- A boolean land mask, `True` = land / usable. -/
abbrev Mask := List (List Bool)

/-- One frame of the temperature reference dataset
(`temp_data["frames"][i]["data"]`): rows of nullable numeric values. -/
abbrev TempFrame := List (List (Option ℚ))

/-- A weather-station reading as consumed by `interpolate_humidity`:
the `humidity`, `latitude` and `longitude` fields, each possibly absent. -/
structure Station where
  humidity : Option ℚ
  latitude : Option ℚ
  longitude : Option ℚ
deriving DecidableEq, Repr

/-- The `GEO_INFO` grid configuration dict of `update_humidity.py`. -/
structure GeoInfo where
  bottom_left_lon : ℚ
  bottom_left_lat : ℚ
  top_right_lon : ℚ
  top_right_lat : ℚ
  resolution_deg : ℚ
  resolution_km : ℚ
  grid_rows : ℕ
  grid_cols : ℕ
deriving DecidableEq, Repr

/-- The `GEO_INFO` constant of `update_humidity.py`. -/
def GEO_INFO : GeoInfo :=
  { bottom_left_lon := 120.0
    bottom_left_lat := 21.88
    top_right_lon := 121.98
    top_right_lat := 25.45
    resolution_deg := 0.03
    resolution_km := 3.3
    grid_rows := 120
    grid_cols := 67 }

/-- The stats dict built at the end of `interpolate_humidity`. -/
structure FrameStats where
  min : Option ℚ
  max : Option ℚ
  avg : Option ℚ
  valid_points : ℕ
  station_count : ℕ
deriving DecidableEq, Repr

/-- Second component of the pair returned by `interpolate_humidity`: either
the `\x7b"error": msg\x7d` dict of the insufficient-stations path or the real
stats dict. -/
inductive StatsDict
  | error (msg : String)
  | stats (s : FrameStats)
deriving DecidableEq, Repr

/-- The interpolation method string passed to `scipy.interpolate.griddata`. -/
inductive GDMethod
  | cubic
  | linear
deriving DecidableEq, Repr

/-- Abstract model of `scipy.interpolate.griddata`: given the method, the
station points, the station values, and the meshgrid axes (lon samples,
lat samples), it either raises (`Except.error`) or returns a 2D array over
the meshgrid in which NaN cells (outside the convex hull) are `none`. -/
def GriddataFn : Type :=
  GDMethod → List (ℚ × ℚ) → List ℚ → List ℚ → List ℚ → Except String Grid

/-- The validity filter of `interpolate_humidity` lines 238-243: a station
is kept when its humidity, latitude and longitude are all non-None. -/
def validStation (s : Station) : Bool :=
  s.humidity.isSome && s.latitude.isSome && s.longitude.isSome

/-- Source `valid_stations` (line 238): stations with valid humidity data. -/
def valid_stations (stations : List Station) : List Station :=
  stations.filter validStation

/-- Source `points` (line 249): `(longitude, latitude)` pairs of the valid
stations.  The `getD 0` is never reached on filtered input. -/
def station_points (l : List Station) : List (ℚ × ℚ) :=
  l.map fun s => (s.longitude.getD 0, s.latitude.getD 0)

/-- Source `values` (line 253): humidity values of the valid stations. -/
def station_values (l : List Station) : List ℚ :=
  l.map fun s => s.humidity.getD 0

/-- Model of `np.linspace a b n`: `n` evenly spaced samples from `a` to `b`, both
endpoints included (for `n = 1`, the rational division by zero yields `[a]`,
matching numpy). -/
def linspace (a b : ℚ) (n : ℕ) : List ℚ :=
  (List.range n).map fun i : ℕ => a + (b - a) * (i : ℚ) / ((n : ℚ) - 1)

/-- Source `lon` (line 256): the longitude samples of the grid. -/
def grid_lon (geo_info : GeoInfo) : List ℚ :=
  linspace geo_info.bottom_left_lon geo_info.top_right_lon geo_info.grid_cols

/-- Source `lat` (line 261): the latitude samples of the grid. -/
def grid_lat (geo_info : GeoInfo) : List ℚ :=
  linspace geo_info.bottom_left_lat geo_info.top_right_lat geo_info.grid_rows

/-- Model of `np.clip x lo hi` on a finite value. -/
def np_clip (x lo hi : ℚ) : ℚ :=
  min (max x lo) hi

/-- Line 284: `np.clip(grid_humidity, 0, 100)`; NaN cells stay NaN. -/
def clipGrid (g : Grid) : Grid :=
  g.map fun row => row.map fun c => c.map fun x => np_clip x 0 100

/-- Shape compatibility requirement of numpy for the boolean-mask assignment
`grid_humidity[~land_mask] = np.nan`: the mask shape must equal the
array shape. -/
def sameShape (m : Mask) (g : Grid) : Bool :=
  (m.length == g.length) &&
    (List.zip m g).all fun p => p.1.length == p.2.length

/-- Source line 291, `grid_humidity[~land_mask] = np.nan`: cells where the mask is
False become NaN. -/
def applyMask (m : Mask) (g : Grid) : Grid :=
  List.zipWith
    (fun mrow grow => List.zipWith (fun b c => if b then c else none) mrow grow)
    m g

/-- Lines 288-291: apply the land mask if one is available.  A mask whose
shape does not match the array makes the boolean indexing of numpy raise
`IndexError`, modelled as `Except.error`. -/
def maskGrid (land_mask : Option Mask) (g : Grid) : Except String Grid :=
  match land_mask with
  | none => .ok g
  | some m =>
    if sameShape m g then .ok (applyMask m g)
    else .error "boolean index did not match indexed array"

/-- Source `valid_grid` (line 294): the non-NaN values of the grid, in row-major
order, as the boolean indexing of numpy flattens them. -/
def validGrid (g : Grid) : List ℚ :=
  g.flatten.filterMap id

/-- Source `inner_values` (line 296): valid values strictly between 0.1 and 99.9
(clipping artifacts near the bounds excluded). -/
def innerValues (vg : List ℚ) : List ℚ :=
  vg.filter fun v => decide ((1 : ℚ) / 10 < v) && decide (v < (999 : ℚ) / 10)

/-- Round-half-to-even to an integer, the semantics of the Python `round`. -/
def roundHalfEven (x : ℚ) : ℤ :=
  if x - ⌊x⌋ < 1 / 2 then ⌊x⌋
  else if 1 / 2 < x - ⌊x⌋ then ⌊x⌋ + 1
  else if ⌊x⌋ % 2 = 0 then ⌊x⌋ else ⌊x⌋ + 1

/-- Model of the Python `round(x, 1)`: round to one decimal place, ties to even. -/
def pyRound1 (x : ℚ) : ℚ :=
  (roundHalfEven (10 * x) : ℚ) / 10

/-- Model of `np.min` over a flattened nonempty array (0 on empty, never used there:
the source guards with `len > 0`). -/
def npMin : List ℚ → ℚ
  | [] => 0
  | x :: xs => xs.foldl min x

/-- Model of `np.max` over a flattened nonempty array (0 on empty, never used there). -/
def npMax : List ℚ → ℚ
  | [] => 0
  | x :: xs => xs.foldl max x

/-- Model of `np.mean` over a flattened array: sum divided by length. -/
def npMean (l : List ℚ) : ℚ :=
  l.sum / l.length

/-- The `stats` dict of lines 293-304, computed from the clipped and masked
grid before the per-cell rounding of the output list. -/
def computeStats (grid_humidity : Grid) (station_count : ℕ) : FrameStats :=
  let valid_grid := validGrid grid_humidity
  let inner_values := innerValues valid_grid
  { min := if 0 < inner_values.length then some (pyRound1 (npMin inner_values)) else none
    max := if 0 < inner_values.length then some (pyRound1 (npMax inner_values)) else none
    avg := if 0 < valid_grid.length then some (pyRound1 (npMean valid_grid)) else none
    valid_points := grid_humidity.flatten.countP Option.isSome
    station_count := station_count }

/-- Lines 306-315: convert the grid to a list, replacing NaN with None and
rounding every numeric cell to one decimal place. -/
def gridToList (g : Grid) : Grid :=
  g.map fun row => row.map fun c => c.map pyRound1

/-- Lines 269-280: interpolate with the cubic method, falling back to the
linear method when cubic raises; a linear failure propagates. -/
def gridFromGriddata (griddata : GriddataFn)
    (points : List (ℚ × ℚ)) (values lon lat : List ℚ) : Except String Grid :=
  match griddata .cubic points values lon lat with
  | .ok g => .ok g
  | .error _ => griddata .linear points values lon lat

/-- Source `interpolate_humidity` (lines 226-317).  The land mask is the value
`get_land_mask()` would return, injected explicitly.  The `Except` layer
models a raised exception escaping the function. -/
def interpolate_humidity (griddata : GriddataFn) (land_mask : Option Mask)
    (stations : List Station) (geo_info : GeoInfo) :
    Except String (Option Grid × StatsDict) :=
  if (valid_stations stations).length < 4 then
    .ok (none, .error "Not enough valid stations")
  else
    match gridFromGriddata griddata
        (station_points (valid_stations stations))
        (station_values (valid_stations stations))
        (grid_lon geo_info) (grid_lat geo_info) with
    | .error e => .error e
    | .ok grid0 =>
      match maskGrid land_mask (clipGrid grid0) with
      | .error e => .error e
      | .ok grid_humidity =>
        .ok (some (gridToList grid_humidity),
             .stats (computeStats grid_humidity (valid_stations stations).length))

/-- Source `load_land_mask` (lines 189-211).  Input `none` models "temperature file
absent, or any exception while reading/parsing it" (both return None in the
source); `some frames` models the parsed list `temp_data["frames"]`, each
entry being its `["data"]` grid.  An empty frames list makes `frames[0]`
raise, which the `except` catches, returning None.  Otherwise the mask marks
a cell True exactly when `val is not None and val > -900`. -/
def load_land_mask (temperature_frames : Option (List TempFrame)) : Option Mask :=
  match temperature_frames with
  | none => none
  | some [] => none
  | some (first_frame :: _) =>
    some (first_frame.map fun row =>
      row.map fun val => val.isSome && decide ((-900 : ℚ) < val.getD 0))

/-- A cell of an optional mask, read with out-of-bounds default `false`. -/
def maskCell (mo : Option Mask) (i j : ℕ) : Bool :=
  ((mo.getD []).getD i []).getD j false

/-- Source `get_land_mask` (lines 218-223) as one state transition.  The state is
the module global `LAND_MASK`; `load_result` is what `load_land_mask()`
would return if called now.  Returns (new state, returned mask, whether
`load_land_mask` was invoked). -/
def get_land_mask_step (LAND_MASK : Option Mask) (load_result : Option Mask) :
    Option Mask × Option Mask × Bool :=
  match LAND_MASK with
  | some m => (some m, some m, false)
  | none => (load_result, load_result, true)

/-- A sequence of `get_land_mask()` calls threaded through the global state:
`loads` gives, per call, what `load_land_mask()` would return if invoked at
that call.  Yields per call (returned mask, whether the loader ran). -/
def run_get_land_mask : Option Mask → List (Option Mask) → List (Option Mask × Bool)
  | _, [] => []
  | st, l :: ls =>
    let r := get_land_mask_step st l
    (r.2.1, r.2.2) :: run_get_land_mask r.1 ls

/-! ### Concrete test fixtures (used by witnesses) -/

/-- A well-behaved griddata model: a constant 50%-humidity surface over the
meshgrid. -/
def gdConst : GriddataFn := fun _ _ _ lon lat =>
  .ok (lat.map fun _ => lon.map fun _ => some 50)

/-- A griddata model whose cubic method raises (degenerate input) while the
linear fallback succeeds. -/
def gdFallback : GriddataFn := fun m _ _ lon lat =>
  match m with
  | .cubic => .error "QhullError"
  | .linear => .ok (lat.map fun _ => lon.map fun _ => some 50)

/-- A 2 x 2 test grid configuration. -/
def geoEx : GeoInfo :=
  { bottom_left_lon := 0, bottom_left_lat := 0, top_right_lon := 1, top_right_lat := 1,
    resolution_deg := 1, resolution_km := 1, grid_rows := 2, grid_cols := 2 }

/-- Four fully valid stations. -/
def st4 : List Station :=
  [⟨some 40, some 0, some 0⟩, ⟨some 50, some 0, some 1⟩,
   ⟨some 60, some 1, some 0⟩, ⟨some 70, some 1, some 1⟩]

/-- Four stations of which only three are valid (one humidity absent, one
longitude absent). -/
def st3 : List Station :=
  [⟨some 40, some 0, some 0⟩, ⟨some 50, some 0, some 1⟩,
   ⟨none, some 1, some 0⟩, ⟨some 70, some 1, none⟩,
   ⟨some 80, some 2, some 2⟩]

/-- A 2 x 2 mask marking the top-left cell as ocean. -/
def maskEx : Mask := [[false, true], [true, true]]

/-- Two grids have the same rectangular extent. -/
def ShapeEq (a b : Grid) : Prop :=
  a.length = b.length ∧
    ∀ i (hia : i < a.length) (hib : i < b.length), (a[i]).length = (b[i]).length

/-- A test grid with values exactly at the clamping bounds (excluded from
`min`/`max`) and inner values 50 and 60. -/
def gEx5 : Grid := [[some 0, some 50, none], [some 100, some 60, some 0]]

/-- A reference frame with one valid cell, one below-sentinel cell and one
null cell. -/
def frameEx : TempFrame := [[some 5, some (-950), none]]

/-! ### Arithmetic helper lemmas -/

theorem roundHalfEven_le (x : ℚ) : (roundHalfEven x : ℚ) ≤ x + 1 / 2 := by
  have h0 : (⌊x⌋ : ℚ) ≤ x := Int.floor_le x
  have h1 : x < ⌊x⌋ + 1 := Int.lt_floor_add_one x
  unfold roundHalfEven
  split_ifs with h h2 h3 <;> push_cast <;> linarith

theorem le_roundHalfEven (x : ℚ) : x - 1 / 2 ≤ (roundHalfEven x : ℚ) := by
  have h0 : (⌊x⌋ : ℚ) ≤ x := Int.floor_le x
  have h1 : x < ⌊x⌋ + 1 := Int.lt_floor_add_one x
  unfold roundHalfEven
  split_ifs with h h2 h3 <;> push_cast <;> linarith

theorem pyRound1_mem_Icc (x : ℚ) (h0 : 0 ≤ x) (h1 : x ≤ 100) :
    0 ≤ pyRound1 x ∧ pyRound1 x ≤ 100 := by
  have hl := le_roundHalfEven (10 * x)
  have hu := roundHalfEven_le (10 * x)
  have hz : (0 : ℤ) ≤ roundHalfEven (10 * x) := by
    have h2 : (-1 : ℚ) < (roundHalfEven (10 * x) : ℚ) := by linarith
    have h3 : (-1 : ℤ) < roundHalfEven (10 * x) := by exact_mod_cast h2
    omega
  have ht : roundHalfEven (10 * x) ≤ (1000 : ℤ) := by
    have h2 : (roundHalfEven (10 * x) : ℚ) < 1001 := by linarith
    have h3 : roundHalfEven (10 * x) < (1001 : ℤ) := by exact_mod_cast h2
    omega
  constructor
  · unfold pyRound1
    positivity
  · unfold pyRound1
    rw [div_le_iff₀ (by norm_num)]
    calc (roundHalfEven (10 * x) : ℚ) ≤ (1000 : ℤ) := by exact_mod_cast ht
      _ = 100 * 10 := by norm_num

theorem pyRound1_tenth (x : ℚ) : ∃ k : ℤ, pyRound1 x = (k : ℚ) / 10 :=
  ⟨roundHalfEven (10 * x), rfl⟩

/-! ### `np.min` / `np.max` fold lemmas -/

theorem foldl_min_le_init (a : ℚ) (l : List ℚ) : l.foldl min a ≤ a := by
  induction l generalizing a with
  | nil => simp
  | cons x xs ih => exact le_trans (ih (min a x)) (min_le_left a x)

theorem foldl_min_le_mem (a : ℚ) (l : List ℚ) : ∀ v ∈ l, l.foldl min a ≤ v := by
  induction l generalizing a with
  | nil => simp
  | cons x xs ih =>
    intro v hv
    rcases List.mem_cons.mp hv with h | h
    · subst h
      exact le_trans (foldl_min_le_init (min a v) xs) (min_le_right a v)
    · exact ih (min a x) v h

theorem foldl_min_mem (a : ℚ) (l : List ℚ) : l.foldl min a = a ∨ l.foldl min a ∈ l := by
  induction l generalizing a with
  | nil => left; rfl
  | cons x xs ih =>
    simp only [List.foldl_cons]
    rcases ih (min a x) with h | h
    · rcases min_choice a x with hm | hm
      · left; rw [h, hm]
      · right; rw [h, hm]; exact List.mem_cons_self x xs
    · right; exact List.mem_cons_of_mem x h

theorem npMin_mem (l : List ℚ) (h : l ≠ []) : npMin l ∈ l := by
  match l with
  | x :: xs =>
    rcases foldl_min_mem x xs with h1 | h1
    · rw [npMin, h1]; exact List.mem_cons_self x xs
    · exact List.mem_cons_of_mem x h1

theorem npMin_le (l : List ℚ) : ∀ v ∈ l, npMin l ≤ v := by
  match l with
  | [] => simp
  | x :: xs =>
    intro v hv
    rcases List.mem_cons.mp hv with h | h
    · subst h; exact foldl_min_le_init v xs
    · exact foldl_min_le_mem x xs v h

theorem foldl_max_init_le (a : ℚ) (l : List ℚ) : a ≤ l.foldl max a := by
  induction l generalizing a with
  | nil => simp
  | cons x xs ih => exact le_trans (le_max_left a x) (ih (max a x))

theorem foldl_max_mem_le (a : ℚ) (l : List ℚ) : ∀ v ∈ l, v ≤ l.foldl max a := by
  induction l generalizing a with
  | nil => simp
  | cons x xs ih =>
    intro v hv
    rcases List.mem_cons.mp hv with h | h
    · subst h
      exact le_trans (le_max_right a v) (foldl_max_init_le (max a v) xs)
    · exact ih (max a x) v h

theorem foldl_max_mem (a : ℚ) (l : List ℚ) : l.foldl max a = a ∨ l.foldl max a ∈ l := by
  induction l generalizing a with
  | nil => left; rfl
  | cons x xs ih =>
    simp only [List.foldl_cons]
    rcases ih (max a x) with h | h
    · rcases max_choice a x with hm | hm
      · left; rw [h, hm]
      · right; rw [h, hm]; exact List.mem_cons_self x xs
    · right; exact List.mem_cons_of_mem x h

theorem npMax_mem (l : List ℚ) (h : l ≠ []) : npMax l ∈ l := by
  match l with
  | x :: xs =>
    rcases foldl_max_mem x xs with h1 | h1
    · rw [npMax, h1]; exact List.mem_cons_self x xs
    · exact List.mem_cons_of_mem x h1

theorem npMax_ge (l : List ℚ) : ∀ v ∈ l, v ≤ npMax l := by
  match l with
  | [] => simp
  | x :: xs =>
    intro v hv
    rcases List.mem_cons.mp hv with h | h
    · subst h; exact foldl_max_init_le v xs
    · exact foldl_max_mem_le x xs v h

/-- Counting non-None cells equals the length of the `filterMap id`
flattening (the numpy `np.sum(~isnan)` count vs boolean-index flattening). -/
theorem countP_isSome_eq_length_filterMap (l : List (Option ℚ)) :
    l.countP Option.isSome = (l.filterMap id).length := by
  induction l with
  | nil => rfl
  | cons c cs ih =>
    cases c with
    | none => simpa [List.countP_cons] using ih
    | some v => simpa [List.countP_cons] using ih

/-! ### Shape lemmas for the mask application -/

theorem sameShape_length {m : Mask} {g : Grid} (h : sameShape m g = true) :
    m.length = g.length := by
  unfold sameShape at h
  simp only [Bool.and_eq_true, beq_iff_eq] at h
  exact h.1

theorem sameShape_row {m : Mask} {g : Grid} (h : sameShape m g = true)
    (i : ℕ) (h1 : i < m.length) (h2 : i < g.length) :
    (m[i]).length = (g[i]).length := by
  unfold sameShape at h
  simp only [Bool.and_eq_true, beq_iff_eq, List.all_eq_true] at h
  have hz : i < (List.zip m g).length := by
    rw [List.length_zip]; omega
  have hmem : (m[i], g[i]) ∈ List.zip m g := by
    have := List.getElem_mem hz
    rwa [List.getElem_zip] at this
  exact h.2 (m[i], g[i]) hmem

theorem applyMask_length {m : Mask} {g : Grid} (h : sameShape m g = true) :
    (applyMask m g).length = g.length := by
  unfold applyMask
  rw [List.length_zipWith, sameShape_length h, min_self]

theorem applyMask_getElem (m : Mask) (g : Grid) (i : ℕ)
    (hi : i < (applyMask m g).length)
    (him : i < m.length) (hig : i < g.length) :
    (applyMask m g)[i] =
      List.zipWith (fun b c => if b then c else none) m[i] g[i] :=
  List.getElem_zipWith

theorem applyMask_length_le {m : Mask} {g : Grid} {i : ℕ}
    (hi : i < (applyMask m g).length) : i < m.length ∧ i < g.length := by
  unfold applyMask at hi
  rw [List.length_zipWith] at hi
  omega

theorem clipGrid_length (g : Grid) : (clipGrid g).length = g.length := by
  unfold clipGrid; rw [List.length_map]

theorem clipGrid_row_length (g : Grid) (i : ℕ) (h : i < g.length)
    (h2 : i < (clipGrid g).length) :
    ((clipGrid g)[i]).length = (g[i]).length := by
  unfold clipGrid
  rw [List.getElem_map, List.length_map]

theorem gridToList_length (g : Grid) : (gridToList g).length = g.length := by
  unfold gridToList; rw [List.length_map]

theorem gridToList_getElem (g : Grid) (i : ℕ) (h : i < g.length)
    (h2 : i < (gridToList g).length) :
    (gridToList g)[i] = (g[i]).map (fun c => c.map pyRound1) := by
  unfold gridToList
  rw [List.getElem_map]

/-! ### Inversion lemmas for `interpolate_humidity` -/

theorem interpolate_insufficient (gd : GriddataFn) (lm : Option Mask)
    (st : List Station) (geo : GeoInfo)
    (h : (valid_stations st).length < 4) :
    interpolate_humidity gd lm st geo =
      .ok (none, .error "Not enough valid stations") := by
  unfold interpolate_humidity
  rw [if_pos h]

theorem interpolate_ok_some (gd : GriddataFn) (lm : Option Mask)
    (st : List Station) (geo : GeoInfo) (g : Grid) (sd : StatsDict)
    (h : interpolate_humidity gd lm st geo = .ok (some g, sd)) :
    ∃ grid0 gh,
      gridFromGriddata gd (station_points (valid_stations st))
          (station_values (valid_stations st)) (grid_lon geo) (grid_lat geo) = .ok grid0
      ∧ maskGrid lm (clipGrid grid0) = .ok gh
      ∧ g = gridToList gh
      ∧ sd = .stats (computeStats gh (valid_stations st).length) := by
  unfold interpolate_humidity at h
  split at h
  · simp at h
  · split at h
    · simp at h
    · rename_i grid0 hg0
      split at h
      · simp at h
      · rename_i gh hgh
        simp only [Except.ok.injEq, Prod.mk.injEq, Option.some.injEq] at h
        obtain ⟨hg, hsd⟩ := h
        exact ⟨grid0, gh, hg0, hgh, hg.symm, hsd.symm⟩

theorem maskGrid_ok_inv (lm : Option Mask) (cg gh : Grid)
    (h : maskGrid lm cg = .ok gh) :
    (lm = none ∧ gh = cg) ∨
      (∃ m, lm = some m ∧ sameShape m cg = true ∧ gh = applyMask m cg) := by
  cases lm with
  | none =>
    left
    unfold maskGrid at h
    simp only [Except.ok.injEq] at h
    exact ⟨rfl, h.symm⟩
  | some m =>
    right
    simp only [maskGrid] at h
    split at h
    · rename_i hs
      simp only [Except.ok.injEq] at h
      exact ⟨m, rfl, hs, h.symm⟩
    · simp at h

/-! ### Cell provenance lemmas -/

theorem zipWith_mask_cell (mrow : List Bool) (grow : List (Option ℚ)) :
    ∀ c ∈ List.zipWith (fun b c => if b then c else none) mrow grow,
      c = none ∨ c ∈ grow := by
  induction mrow generalizing grow with
  | nil => simp
  | cons b bs ih =>
    cases grow with
    | nil => simp
    | cons x xs =>
      intro c hc
      simp only [List.zipWith_cons_cons, List.mem_cons] at hc
      rcases hc with h | h
      · by_cases hb : b
        · right; rw [h]; simp [hb]
        · left; rw [h]; simp [hb]
      · rcases ih xs c h with h2 | h2
        · left; exact h2
        · right; exact List.mem_cons_of_mem x h2

theorem applyMask_row_sub (m : Mask) (g : Grid) :
    ∀ row ∈ applyMask m g, ∀ c ∈ row, c = none ∨ ∃ grow ∈ g, c ∈ grow := by
  induction m generalizing g with
  | nil => simp [applyMask]
  | cons mr ms ih =>
    cases g with
    | nil => simp [applyMask]
    | cons gr gs =>
      intro row hrow c hc
      simp only [applyMask, List.zipWith_cons_cons, List.mem_cons] at hrow
      rcases hrow with h | h
      · rw [h] at hc
        rcases zipWith_mask_cell mr gr c hc with h2 | h2
        · left; exact h2
        · right; exact ⟨gr, List.mem_cons_self gr gs, h2⟩
      · rcases ih gs row h c hc with h2 | ⟨grow, hg, hcg⟩
        · left; exact h2
        · right; exact ⟨grow, List.mem_cons_of_mem gr hg, hcg⟩

theorem maskGrid_cell_sub (lm : Option Mask) (cg gh : Grid)
    (h : maskGrid lm cg = .ok gh) :
    ∀ row ∈ gh, ∀ c ∈ row, c = none ∨ ∃ grow ∈ cg, c ∈ grow := by
  rcases maskGrid_ok_inv lm cg gh h with ⟨_, rfl⟩ | ⟨m, _, _, rfl⟩
  · intro row hrow c hc
    right
    exact ⟨row, hrow, hc⟩
  · exact applyMask_row_sub m cg

theorem clipGrid_cell (g : Grid) :
    ∀ row ∈ clipGrid g, ∀ c ∈ row, ∀ v, c = some v → 0 ≤ v ∧ v ≤ 100 := by
  intro row hrow c hc v hv
  unfold clipGrid at hrow
  rw [List.mem_map] at hrow
  obtain ⟨r0, _, hr0⟩ := hrow
  rw [← hr0, List.mem_map] at hc
  obtain ⟨c0, _, hc0⟩ := hc
  cases c0 with
  | none => rw [← hc0] at hv; simp at hv
  | some x =>
    rw [← hc0] at hv
    simp only [Option.map_some', Option.some.injEq] at hv
    rw [← hv]
    unfold np_clip
    constructor
    · exact le_min (le_max_right x 0) (by norm_num)
    · exact min_le_right _ 100

/-- Master cell lemma: every numeric cell of a grid returned by
`interpolate_humidity` is `pyRound1` of some clamped value in `[0, 100]`. -/
theorem interpolate_cell_shape (gd : GriddataFn) (lm : Option Mask)
    (st : List Station) (geo : GeoInfo) (g : Grid) (sd : StatsDict)
    (h : interpolate_humidity gd lm st geo = .ok (some g, sd)) :
    ∀ row ∈ g, ∀ c ∈ row, ∀ v, c = some v →
      ∃ x, 0 ≤ x ∧ x ≤ 100 ∧ v = pyRound1 x := by
  obtain ⟨grid0, gh, _, hmask, hg, _⟩ := interpolate_ok_some gd lm st geo g sd h
  intro row hrow c hc v hv
  rw [hg] at hrow
  unfold gridToList at hrow
  rw [List.mem_map] at hrow
  obtain ⟨r0, hr0mem, hr0⟩ := hrow
  rw [← hr0, List.mem_map] at hc
  obtain ⟨c0, hc0mem, hc0⟩ := hc
  cases c0 with
  | none => rw [← hc0] at hv; simp at hv
  | some x =>
    rw [← hc0] at hv
    simp only [Option.map_some', Option.some.injEq] at hv
    rcases maskGrid_cell_sub lm (clipGrid grid0) gh hmask r0 hr0mem (some x) hc0mem with
      h2 | ⟨grow, hgmem, hcg⟩
    · simp at h2
    · have hb := clipGrid_cell grid0 grow hgmem (some x) hcg x rfl
      exact ⟨x, hb.1, hb.2, hv.symm⟩

theorem roundHalfEven_intCast (n : ℤ) : roundHalfEven (n : ℚ) = n := by
  unfold roundHalfEven
  rw [Int.floor_intCast]
  norm_num

theorem pyRound1_fifty : pyRound1 50 = 50 := by
  unfold pyRound1
  have h : (10 : ℚ) * 50 = ((500 : ℤ) : ℚ) := by norm_num
  rw [h, roundHalfEven_intCast]
  norm_num

theorem np_clip_fifty : np_clip 50 0 100 = 50 := by
  unfold np_clip
  norm_num [max_def, min_def]

theorem gridFromGriddata_gdConst_st4 :
    gridFromGriddata gdConst (station_points (valid_stations st4))
      (station_values (valid_stations st4)) (grid_lon geoEx) (grid_lat geoEx) =
      .ok [[some 50, some 50], [some 50, some 50]] := rfl

theorem clipGrid_fifty : clipGrid [[some 50, some 50], [some 50, some 50]] =
    [[some 50, some 50], [some 50, some 50]] := by
  simp [clipGrid, np_clip_fifty]

theorem interp_st4_eval :
    interpolate_humidity gdConst none st4 geoEx =
      .ok (some [[some 50, some 50], [some 50, some 50]],
        .stats { min := some 50, max := some 50, avg := some 50,
                 valid_points := 4, station_count := 4 }) := by
  have hvalid : validGrid [[some 50, some 50], [some 50, some 50]] = [50, 50, 50, 50] := rfl
  have hinner : innerValues [50, 50, 50, 50] = [50, 50, 50, 50] := by
    unfold innerValues
    norm_num [List.filter_cons]
  have hstats : computeStats [[some 50, some 50], [some 50, some 50]] 4 =
      { min := some 50, max := some 50, avg := some 50,
        valid_points := 4, station_count := 4 } := by
    simp only [computeStats, hvalid, hinner]
    norm_num [npMin, npMax, npMean, min_self, max_self, pyRound1_fifty]
  have hlen : (valid_stations st4).length = 4 := rfl
  unfold interpolate_humidity
  rw [if_neg (by decide)]
  simp only [gridFromGriddata_gdConst_st4, clipGrid_fifty, hlen]
  have hmask : maskGrid none [[some 50, some 50], [some 50, some 50]] =
      .ok [[some 50, some 50], [some 50, some 50]] := rfl
  simp only [hmask, hstats]
  simp [gridToList, pyRound1_fifty]

/-! ### Claim theorems -/

/-- Claim C1: `interpolate_humidity` first filters out stations whose
humidity, latitude, or longitude is absent; if fewer than 4 stations remain
it returns no grid together with the `Not enough valid stations` failure
indication rather than raising, and with 4 or more valid stations any
non-raising return carries a grid (boundary at 4). -/
theorem claim_C1 (gd : GriddataFn) (lm : Option Mask) (st : List Station) (geo : GeoInfo) :
    ((valid_stations st).length < 4 →
      interpolate_humidity gd lm st geo =
        .ok (none, .error "Not enough valid stations"))
    ∧ (4 ≤ (valid_stations st).length →
      ∀ r, interpolate_humidity gd lm st geo = .ok r → r.1.isSome = true) := by
  constructor
  · exact interpolate_insufficient gd lm st geo
  · intro h4 r hr
    unfold interpolate_humidity at hr
    rw [if_neg (by omega)] at hr
    split at hr
    · simp at hr
    · split at hr
      · simp at hr
      · simp only [Except.ok.injEq] at hr
        rw [← hr]
        simp

theorem claim_C1_witness :
    (valid_stations st3).length < 4 ∧
    interpolate_humidity gdConst none st3 geoEx =
      .ok (none, .error "Not enough valid stations") :=
  ⟨by decide, (claim_C1 gdConst none st3 geoEx).1 (by decide)⟩

/-- Claim C2: every numeric cell of a successfully returned grid lies in the
closed interval `[0, 100]`. -/
theorem claim_C2 (gd : GriddataFn) (lm : Option Mask) (st : List Station)
    (geo : GeoInfo) (g : Grid) (sd : StatsDict)
    (h : interpolate_humidity gd lm st geo = .ok (some g, sd)) :
    ∀ row ∈ g, ∀ c ∈ row, ∀ v : ℚ, c = some v → 0 ≤ v ∧ v ≤ 100 := by
  intro row hrow c hc v hv
  obtain ⟨x, hx0, hx1, hvx⟩ :=
    interpolate_cell_shape gd lm st geo g sd h row hrow c hc v hv
  rw [hvx]
  exact pyRound1_mem_Icc x hx0 hx1

theorem claim_C2_witness : (0 : ℚ) ≤ 50 ∧ (50 : ℚ) ≤ 100 :=
  claim_C2 gdConst none st4 geoEx _ _ interp_st4_eval
    [some 50, some 50] (by simp) (some 50) (by simp) 50 rfl

/-- Claim C9: every numeric cell of a successfully returned grid is rounded
to one decimal place: it equals `k / 10` for some integer `k`. -/
theorem claim_C9 (gd : GriddataFn) (lm : Option Mask) (st : List Station)
    (geo : GeoInfo) (g : Grid) (sd : StatsDict)
    (h : interpolate_humidity gd lm st geo = .ok (some g, sd)) :
    ∀ row ∈ g, ∀ c ∈ row, ∀ v : ℚ, c = some v → ∃ k : ℤ, v = (k : ℚ) / 10 := by
  intro row hrow c hc v hv
  obtain ⟨x, _, _, hvx⟩ :=
    interpolate_cell_shape gd lm st geo g sd h row hrow c hc v hv
  rw [hvx]
  exact pyRound1_tenth x

theorem claim_C9_witness : ∃ k : ℤ, (50 : ℚ) = (k : ℚ) / 10 :=
  claim_C9 gdConst none st4 geoEx _ _ interp_st4_eval
    [some 50, some 50] (by simp) (some 50) (by simp) 50 rfl

/-- Claim C3: when a land mask is applied and the call succeeds, every cell
the mask marks `false` is `none` in the returned grid (out-of-range indices
are excluded by the `getD` defaults). -/
theorem claim_C3 (gd : GriddataFn) (m : Mask) (st : List Station) (geo : GeoInfo)
    (g : Grid) (sd : StatsDict)
    (h : interpolate_humidity gd (some m) st geo = .ok (some g, sd)) :
    ∀ i j : ℕ, (m.getD i []).getD j true = false →
      (g.getD i []).getD j (some 0) = none := by
  obtain ⟨grid0, gh, _, hmask, hg, _⟩ := interpolate_ok_some gd (some m) st geo g sd h
  subst hg
  rcases maskGrid_ok_inv (some m) (clipGrid grid0) gh hmask with ⟨hc, _⟩ | ⟨m2, hm2, hs, hgh⟩
  · exact absurd hc (by simp)
  · have hm2e : m2 = m := by
      injection hm2 with hh
      exact hh.symm
    subst hm2e
    intro i j hmij
    have hi : i < m2.length := by
      by_contra hib
      push_neg at hib
      rw [List.getD_eq_default _ _ hib] at hmij
      simp at hmij
    have hmi : m2.getD i [] = m2[i] := List.getD_eq_getElem m2 [] hi
    have hj : j < (m2[i]).length := by
      by_contra hjb
      push_neg at hjb
      rw [hmi, List.getD_eq_default _ _ hjb] at hmij
      simp at hmij
    rw [hmi, List.getD_eq_getElem _ _ hj] at hmij
    -- shapes
    have hcgl : i < (clipGrid grid0).length := by
      rw [← sameShape_length hs]; exact hi
    have hcgrow : (m2[i]).length = ((clipGrid grid0)[i]).length :=
      sameShape_row hs i hi hcgl
    have hghl : i < gh.length := by
      rw [hgh, applyMask_length hs]; exact hcgl
    -- the masked cell is none
    have hghrow : gh[i] =
        List.zipWith (fun b c => if b then c else none)
          (m2[i]) ((clipGrid grid0)[i]) := by
      have := applyMask_getElem m2 (clipGrid grid0) i (by rw [← hgh]; exact hghl) hi hcgl
      simp only [← hgh] at this
      exact this
    have hjz : j < (gh[i]).length := by
      rw [hghrow, List.length_zipWith, ← hcgrow, min_self]
      exact hj
    have hcell : gh[i][j] = none := by
      simp only [hghrow, List.getElem_zipWith, hmij]
      simp
    -- transport to the rounded output grid
    have hgl : i < (gridToList gh).length := by
      rw [gridToList_length]; exact hghl
    rw [List.getD_eq_getElem _ [] hgl]
    rw [gridToList_getElem gh i hghl]
    rw [List.getD_eq_getElem _ _ (by rw [List.length_map]; exact hjz)]
    rw [List.getElem_map]
    simp only [hcell]
    rfl

theorem interp_st4_mask_eval :
    interpolate_humidity gdConst (some maskEx) st4 geoEx =
      .ok (some [[none, some 50], [some 50, some 50]],
        .stats { min := some 50, max := some 50, avg := some 50,
                 valid_points := 3, station_count := 4 }) := by
  have hvalid : validGrid [[none, some 50], [some 50, some 50]] = [50, 50, 50] := rfl
  have hinner : innerValues [50, 50, 50] = [50, 50, 50] := by
    unfold innerValues
    norm_num [List.filter_cons]
  have hstats : computeStats [[none, some 50], [some 50, some 50]] 4 =
      { min := some 50, max := some 50, avg := some 50,
        valid_points := 3, station_count := 4 } := by
    simp only [computeStats, hvalid, hinner]
    norm_num [npMin, npMax, npMean, min_self, max_self, pyRound1_fifty]
  have hlen : (valid_stations st4).length = 4 := rfl
  unfold interpolate_humidity
  rw [if_neg (by decide)]
  simp only [gridFromGriddata_gdConst_st4, clipGrid_fifty, hlen]
  have hmask : maskGrid (some maskEx) [[some 50, some 50], [some 50, some 50]] =
      .ok [[none, some 50], [some 50, some 50]] := rfl
  simp only [hmask, hstats]
  simp [gridToList, pyRound1_fifty]

theorem claim_C3_witness :
    (maskEx.getD 0 []).getD 0 true = false ∧
    (([[none, some 50], [some 50, some 50]] : Grid).getD 0 []).getD 0 (some 0) = none :=
  ⟨rfl, claim_C3 gdConst maskEx st4 geoEx _ _ interp_st4_mask_eval 0 0 rfl⟩

/-! ### Shape preservation through the pipeline (for C4) -/

theorem shapeEq_clipGrid (g : Grid) : ShapeEq (clipGrid g) g := by
  refine ⟨clipGrid_length g, fun i hia hib => ?_⟩
  rw [clipGrid_row_length g i hib]

theorem shapeEq_gridToList (g : Grid) : ShapeEq (gridToList g) g := by
  refine ⟨gridToList_length g, fun i hia hib => ?_⟩
  rw [gridToList_getElem g i hib, List.length_map]

theorem shapeEq_applyMask (m : Mask) (g : Grid) (h : sameShape m g = true) :
    ShapeEq (applyMask m g) g := by
  refine ⟨applyMask_length h, fun i hia hib => ?_⟩
  have hm : i < m.length := (applyMask_length_le hia).1
  rw [applyMask_getElem m g i hia hm hib, List.length_zipWith]
  rw [sameShape_row h i hm hib, min_self]

theorem shapeEq_trans {a b c : Grid} (h1 : ShapeEq a b) (h2 : ShapeEq b c) :
    ShapeEq a c := by
  refine ⟨h1.1.trans h2.1, fun i hia hic => ?_⟩
  have hib : i < b.length := by rw [← h1.1]; exact hia
  rw [h1.2 i hia hib, h2.2 i hib hic]

theorem shapeEq_getD (a b : Grid) (h : ShapeEq a b) (i : ℕ) :
    (a.getD i []).length = (b.getD i []).length := by
  by_cases hia : i < a.length
  · have hib : i < b.length := by rw [← h.1]; exact hia
    rw [List.getD_eq_getElem a [] hia, List.getD_eq_getElem b [] hib]
    exact h.2 i hia hib
  · have hib : ¬ i < b.length := by rw [← h.1]; exact hia
    rw [List.getD_eq_default a [] (by omega), List.getD_eq_default b [] (by omega)]

theorem maskGrid_shapeEq (lm : Option Mask) (cg gh : Grid)
    (h : maskGrid lm cg = .ok gh) : ShapeEq gh cg := by
  rcases maskGrid_ok_inv lm cg gh h with ⟨_, rfl⟩ | ⟨m, _, hs, rfl⟩
  · exact ⟨rfl, fun i _ _ => rfl⟩
  · exact shapeEq_applyMask m cg hs

/-- Claim C4: with at least 4 valid stations, if the cubic `griddata` call
raises, the same `interpolate_humidity` call retries with the linear method:
when the fallback succeeds (and the mask, if any, matches), a complete grid
with the shape of the fallback grid is returned rather than an exception; the failure is
surfaced only when the linear fallback raises as well. -/
theorem claim_C4 (gd : GriddataFn) (lm : Option Mask) (st : List Station)
    (geo : GeoInfo) (ec : String)
    (h4 : ¬ (valid_stations st).length < 4)
    (hcubic : gd .cubic (station_points (valid_stations st))
        (station_values (valid_stations st)) (grid_lon geo) (grid_lat geo) = .error ec) :
    (∀ g : Grid,
      gd .linear (station_points (valid_stations st)) (station_values (valid_stations st))
          (grid_lon geo) (grid_lat geo) = .ok g →
      (lm = none ∨ ∃ m, lm = some m ∧ sameShape m (clipGrid g) = true) →
      ∃ gl s, interpolate_humidity gd lm st geo = .ok (some gl, .stats s)
        ∧ gl.length = g.length
        ∧ ∀ i, (gl.getD i []).length = (g.getD i []).length)
    ∧ (∀ el : String,
      gd .linear (station_points (valid_stations st)) (station_values (valid_stations st))
          (grid_lon geo) (grid_lat geo) = .error el →
      interpolate_humidity gd lm st geo = .error el) := by
  have hfg : ∀ r, gd .linear (station_points (valid_stations st))
      (station_values (valid_stations st)) (grid_lon geo) (grid_lat geo) = r →
      gridFromGriddata gd (station_points (valid_stations st))
        (station_values (valid_stations st)) (grid_lon geo) (grid_lat geo) = r := by
    intro r hr
    unfold gridFromGriddata
    rw [hcubic, hr]
  constructor
  · intro g hlin hm
    have hgfg := hfg _ hlin
    have hmg : ∃ gh, maskGrid lm (clipGrid g) = .ok gh := by
      rcases hm with rfl | ⟨m, rfl, hs⟩
      · exact ⟨clipGrid g, rfl⟩
      · exact ⟨applyMask m (clipGrid g), by simp [maskGrid, hs]⟩
    obtain ⟨gh, hgh⟩ := hmg
    refine ⟨gridToList gh, computeStats gh (valid_stations st).length, ?_, ?_, ?_⟩
    · unfold interpolate_humidity
      rw [if_neg h4]
      simp only [hgfg, hgh]
    · have hsh := shapeEq_trans (shapeEq_gridToList gh)
        (shapeEq_trans (maskGrid_shapeEq lm (clipGrid g) gh hgh) (shapeEq_clipGrid g))
      exact hsh.1
    · intro i
      have hsh := shapeEq_trans (shapeEq_gridToList gh)
        (shapeEq_trans (maskGrid_shapeEq lm (clipGrid g) gh hgh) (shapeEq_clipGrid g))
      exact shapeEq_getD _ _ hsh i
  · intro el hlin
    have hgfg := hfg _ hlin
    unfold interpolate_humidity
    rw [if_neg h4]
    simp only [hgfg]

theorem claim_C4_witness :
    ∃ gl s, interpolate_humidity gdFallback none st4 geoEx = .ok (some gl, .stats s)
      ∧ gl.length = 2 := by
  obtain ⟨gl, s, h1, h2, _⟩ :=
    (claim_C4 gdFallback none st4 geoEx "QhullError" (by decide) rfl).1
      [[some 50, some 50], [some 50, some 50]] rfl (Or.inl rfl)
  exact ⟨gl, s, h1, h2⟩

/-- Claim C5: `valid_points` counts all valid (non-NaN) cells; `avg` is the
mean over all valid cells and is absent exactly when there are none; `min`
and `max` are computed only over the inner subset of valid values strictly
between 0.1 and 99.9 (values within 0.1 of the clamping bounds excluded),
and are absent exactly when that subset is empty. -/
theorem claim_C5 (g : Grid) (n : ℕ) :
    ((computeStats g n).valid_points = (validGrid g).length)
  ∧ ((computeStats g n).avg = none ↔ validGrid g = [])
  ∧ (validGrid g ≠ [] →
      (computeStats g n).avg =
        some (pyRound1 ((validGrid g).sum / ((validGrid g).length : ℚ))))
  ∧ ((computeStats g n).min = none ↔ innerValues (validGrid g) = [])
  ∧ ((computeStats g n).max = none ↔ innerValues (validGrid g) = [])
  ∧ (innerValues (validGrid g) ≠ [] →
      ∃ x ∈ innerValues (validGrid g),
        (computeStats g n).min = some (pyRound1 x) ∧
          ∀ y ∈ innerValues (validGrid g), x ≤ y)
  ∧ (innerValues (validGrid g) ≠ [] →
      ∃ x ∈ innerValues (validGrid g),
        (computeStats g n).max = some (pyRound1 x) ∧
          ∀ y ∈ innerValues (validGrid g), y ≤ x) := by
  refine ⟨?_, ?_, ?_, ?_, ?_, ?_, ?_⟩
  · simp only [computeStats]
    exact countP_isSome_eq_length_filterMap g.flatten
  · simp only [computeStats]
    split_ifs with h
    · constructor
      · intro hh; simp at hh
      · intro hh; rw [hh] at h; simp at h
    · simp only [true_iff]
      rcases List.eq_nil_or_concat (validGrid g) with he | ⟨_, _, he⟩
      · exact he
      · rw [he] at h; simp at h
  · intro hne
    simp only [computeStats]
    rw [if_pos (List.length_pos.mpr hne)]
    rfl
  · simp only [computeStats]
    split_ifs with h
    · constructor
      · intro hh; simp at hh
      · intro hh; rw [hh] at h; simp at h
    · simp only [true_iff]
      rcases List.eq_nil_or_concat (innerValues (validGrid g)) with he | ⟨_, _, he⟩
      · exact he
      · rw [he] at h; simp at h
  · simp only [computeStats]
    split_ifs with h
    · constructor
      · intro hh; simp at hh
      · intro hh; rw [hh] at h; simp at h
    · simp only [true_iff]
      rcases List.eq_nil_or_concat (innerValues (validGrid g)) with he | ⟨_, _, he⟩
      · exact he
      · rw [he] at h; simp at h
  · intro hne
    refine ⟨npMin (innerValues (validGrid g)), npMin_mem _ hne, ?_, npMin_le _⟩
    simp only [computeStats]
    rw [if_pos (List.length_pos.mpr hne)]
  · intro hne
    refine ⟨npMax (innerValues (validGrid g)), npMax_mem _ hne, ?_, npMax_ge _⟩
    simp only [computeStats]
    rw [if_pos (List.length_pos.mpr hne)]

theorem innerValues_gEx5 : innerValues (validGrid gEx5) = [50, 60] := by
  have hv : validGrid gEx5 = [0, 50, 100, 60, 0] := rfl
  rw [hv]
  unfold innerValues
  norm_num [List.filter_cons]

theorem claim_C5_witness :
    ∃ x ∈ innerValues (validGrid gEx5),
      (computeStats gEx5 6).min = some (pyRound1 x) ∧
        ∀ y ∈ innerValues (validGrid gEx5), x ≤ y :=
  (claim_C5 gEx5 6).2.2.2.2.2.1 (by rw [innerValues_gEx5]; simp)

/-! ### Linspace geometry (for C6) -/

theorem linspace_length (a b : ℚ) (n : ℕ) : (linspace a b n).length = n := by
  unfold linspace
  rw [List.length_map, List.length_range]

theorem linspace_getD (a b : ℚ) (n i : ℕ) (h : i < n) :
    (linspace a b n).getD i 0 = a + (b - a) * (i : ℚ) / ((n : ℚ) - 1) := by
  unfold linspace
  rw [List.getD_eq_getElem _ _ (by rw [List.length_map, List.length_range]; exact h)]
  rw [List.getElem_map, List.getElem_range]

theorem linspace_first (a b : ℚ) (n : ℕ) (h : 0 < n) :
    (linspace a b n).getD 0 0 = a := by
  rw [linspace_getD a b n 0 h]
  simp

theorem linspace_last (a b : ℚ) (n : ℕ) (h : 2 ≤ n) :
    (linspace a b n).getD (n - 1) 0 = b := by
  rw [linspace_getD a b n (n - 1) (by omega)]
  have hc : ((n - 1 : ℕ) : ℚ) = (n : ℚ) - 1 := by
    push_cast [Nat.cast_sub (by omega : 1 ≤ n)]
    ring
  have hne : (n : ℚ) - 1 ≠ 0 := by
    have h2 : (2 : ℚ) ≤ (n : ℚ) := by exact_mod_cast h
    intro hz
    rw [sub_eq_zero] at hz
    rw [hz] at h2
    norm_num at h2
  rw [hc]
  field_simp

theorem linspace_step (a b : ℚ) (n i : ℕ) (h2 : 2 ≤ n) (h : i + 1 < n) :
    (linspace a b n).getD (i + 1) 0 - (linspace a b n).getD i 0 =
      (b - a) / ((n : ℚ) - 1) := by
  rw [linspace_getD a b n (i + 1) h, linspace_getD a b n i (by omega)]
  have hne : (n : ℚ) - 1 ≠ 0 := by
    have hq : (2 : ℚ) ≤ (n : ℚ) := by exact_mod_cast h2
    intro hz
    rw [sub_eq_zero] at hz
    rw [hz] at hq
    norm_num at hq
  push_cast
  field_simp
  ring

/-- Claim C6: for a grid spec with at least 2 rows and 2 columns, the target
grid of `interpolate_humidity` has exactly `grid_cols` longitude samples and
`grid_rows` latitude samples, evenly spaced and inclusive of both configured
bounds: the first and last samples equal the bounds exactly and consecutive
samples differ by the constant interval `(max - min) / (count - 1)`. -/
theorem claim_C6 (geo : GeoInfo) (hc : 2 ≤ geo.grid_cols) (hr : 2 ≤ geo.grid_rows) :
    ((grid_lon geo).length = geo.grid_cols
      ∧ (grid_lon geo).getD 0 0 = geo.bottom_left_lon
      ∧ (grid_lon geo).getD (geo.grid_cols - 1) 0 = geo.top_right_lon
      ∧ ∀ i, i + 1 < geo.grid_cols →
          (grid_lon geo).getD (i + 1) 0 - (grid_lon geo).getD i 0 =
            (geo.top_right_lon - geo.bottom_left_lon) / ((geo.grid_cols : ℚ) - 1))
    ∧ ((grid_lat geo).length = geo.grid_rows
      ∧ (grid_lat geo).getD 0 0 = geo.bottom_left_lat
      ∧ (grid_lat geo).getD (geo.grid_rows - 1) 0 = geo.top_right_lat
      ∧ ∀ i, i + 1 < geo.grid_rows →
          (grid_lat geo).getD (i + 1) 0 - (grid_lat geo).getD i 0 =
            (geo.top_right_lat - geo.bottom_left_lat) / ((geo.grid_rows : ℚ) - 1)) := by
  unfold grid_lon grid_lat
  exact ⟨⟨linspace_length _ _ _, linspace_first _ _ _ (by omega),
          linspace_last _ _ _ hc, fun i hi => linspace_step _ _ _ i hc hi⟩,
         ⟨linspace_length _ _ _, linspace_first _ _ _ (by omega),
          linspace_last _ _ _ hr, fun i hi => linspace_step _ _ _ i hr hi⟩⟩

theorem claim_C6_witness :
    (grid_lon GEO_INFO).length = 67 ∧
    (grid_lon GEO_INFO).getD 0 0 = 120 ∧
    (grid_lon GEO_INFO).getD 66 0 = 121.98 ∧
    (grid_lat GEO_INFO).length = 120 ∧
    (grid_lat GEO_INFO).getD 0 0 = 21.88 ∧
    (grid_lat GEO_INFO).getD 119 0 = 25.45 := by
  obtain ⟨⟨hl1, hl2, hl3, _⟩, ⟨hl5, hl6, hl7, _⟩⟩ :=
    claim_C6 GEO_INFO (by norm_num [GEO_INFO]) (by norm_num [GEO_INFO])
  refine ⟨hl1, ?_, ?_, hl5, ?_, ?_⟩
  · rw [hl2]; norm_num [GEO_INFO]
  · rw [show (66 : ℕ) = GEO_INFO.grid_cols - 1 from rfl, hl3]; norm_num [GEO_INFO]
  · rw [hl6]; norm_num [GEO_INFO]
  · rw [show (119 : ℕ) = GEO_INFO.grid_rows - 1 from rfl, hl7]; norm_num [GEO_INFO]

/-- Claim C7: `load_land_mask` returns None whenever the reference dataset
is absent or malformed (including an empty frames list, whose `frames[0]`
access raises and is caught), and otherwise returns a boolean mask built
from the first frame in which a cell is True exactly when the reference
value is present and strictly above the -900 sentinel floor. -/
theorem getD_map_map (p : Option ℚ → Bool) (f : TempFrame) (i : ℕ) :
    ((f.map fun row => row.map p).getD i []) = (f.getD i []).map p := by
  induction f generalizing i with
  | nil => simp
  | cons r rs ih =>
    cases i with
    | zero => simp
    | succ k => simpa using ih k

/-- Claim C7: `load_land_mask` returns None whenever the reference dataset
is absent or malformed (including an empty frames list, whose `frames[0]`
access raises and is caught), and otherwise returns a boolean mask built
from the first frame in which a cell is True exactly when the reference
value is present and strictly above the -900 sentinel floor. -/
theorem claim_C7 (f : TempFrame) (fs : List TempFrame) (i j : ℕ) :
    load_land_mask none = none
  ∧ load_land_mask (some []) = none
  ∧ (load_land_mask (some (f :: fs))).isSome = true
  ∧ (maskCell (load_land_mask (some (f :: fs))) i j = true ↔
      ∃ v : ℚ, (f.getD i []).getD j none = some v ∧ -900 < v) := by
  refine ⟨rfl, rfl, rfl, ?_⟩
  have hmm : maskCell (load_land_mask (some (f :: fs))) i j =
      ((f.getD i []).map fun val => val.isSome && decide ((-900 : ℚ) < val.getD 0)).getD
        j false := by
    simp only [load_land_mask, maskCell, Option.getD_some]
    rw [getD_map_map]
  rw [hmm]
  by_cases hj : j < (f.getD i []).length
  · rw [List.getD_eq_getElem _ _ (by rwa [List.length_map]), List.getElem_map,
      List.getD_eq_getElem _ none hj]
    cases hv : (f.getD i [])[j] with
    | none => simp
    | some v =>
      simp only [Option.isSome_some, Bool.true_and, Option.getD_some, decide_eq_true_eq,
        Option.some.injEq]
      constructor
      · intro hlt; exact ⟨v, rfl, hlt⟩
      · rintro ⟨w, hw, hlt⟩; rw [← hw] at hlt; exact hlt
  · rw [List.getD_eq_default _ _ (by rw [List.length_map]; omega),
      List.getD_eq_default _ _ (by omega)]
    simp

theorem claim_C7_witness :
    maskCell (load_land_mask (some [frameEx])) 0 0 = true ↔
      ∃ v : ℚ, (frameEx.getD 0 []).getD 0 none = some v ∧ -900 < v :=
  (claim_C7 frameEx [] 0 0).2.2.2

/-- Claim C8: applying a land mask whose shape does not match the
interpolated grid makes `interpolate_humidity` raise (numpy boolean-index
shape error) instead of skipping the mask or returning a grid. -/
theorem claim_C8 (gd : GriddataFn) (st : List Station) (geo : GeoInfo)
    (m : Mask) (g0 : Grid)
    (h4 : ¬ (valid_stations st).length < 4)
    (hgd : gridFromGriddata gd (station_points (valid_stations st))
        (station_values (valid_stations st)) (grid_lon geo) (grid_lat geo) = .ok g0)
    (hm : sameShape m (clipGrid g0) = false) :
    interpolate_humidity gd (some m) st geo =
      .error "boolean index did not match indexed array" := by
  unfold interpolate_humidity
  rw [if_neg h4]
  simp only [hgd]
  simp [maskGrid, hm]

theorem claim_C8_witness :
    interpolate_humidity gdConst (some [[true]]) st4 geoEx =
      .error "boolean index did not match indexed array" :=
  claim_C8 gdConst st4 geoEx [[true]] [[some 50, some 50], [some 50, some 50]]
    (by decide) rfl rfl

/-- Claim C10: `get_land_mask` caches asymmetrically.  Once the global holds
a mask, every later call returns that identical mask without invoking the
loader; while the global is empty, every call invokes the loader, and a None
load result is not cached, so the next call loads again. -/
theorem claim_C10 :
    (∀ (m : Mask) (ls : List (Option Mask)),
      run_get_land_mask (some m) ls = ls.map fun _ => (some m, false))
  ∧ (∀ ls : List (Option Mask),
      run_get_land_mask none (none :: ls) = (none, true) :: run_get_land_mask none ls)
  ∧ (∀ (m : Mask) (ls : List (Option Mask)),
      run_get_land_mask none (some m :: ls) =
        (some m, true) :: ls.map fun _ => (some m, false)) := by
  have hcached : ∀ (m : Mask) (ls : List (Option Mask)),
      run_get_land_mask (some m) ls = ls.map fun _ => (some m, false) := by
    intro m ls
    induction ls with
    | nil => rfl
    | cons l ls ih =>
      simp only [run_get_land_mask, get_land_mask_step, List.map_cons]
      exact congrArg _ ih
  refine ⟨hcached, ?_, ?_⟩
  · intro ls
    rfl
  · intro m ls
    simp only [run_get_land_mask, get_land_mask_step]
    exact congrArg _ (hcached m ls)
